import Mathlib

/-!
Verification of the FolioBlocks consensus core (Master node) against its
natural-language specification.  The Python source under `node/` is shallowly
embedded: handlers become pure functions over explicit state records, database
tables become lists of row records, raised `HTTPException`s become error
constructors carried in the result, and the `cryptography`/`hashlib` library
calls become an abstract `CryptoModel` parameter.  Text values (Python `str`)
are modelled as `List Char` so that slicing and concatenation behave exactly
as in Python.
-/

/-- Python strings, modelled as character lists so slicing is exact. -/
abbrev PyStr := List Char

/-- Python slice `s[i:j]` (for `0 ≤ i ≤ j`). -/
def pySlice (s : PyStr) (i j : Nat) : PyStr := (s.drop i).take (j - i)

/-- Python slice `s[i:]`. -/
def pySliceFrom (s : PyStr) (i : Nat) : PyStr := s.drop i

/-- Python slice `s[:j]`. -/
def pySliceTo (s : PyStr) (j : Nat) : PyStr := s.take j

/-! ## Data model: blocks (blueprint/schemas.py as used by node/api/node.py) -/

/-- Transaction carried inside a block body; the `action` field is the wire
integer tag of `TransactionActions` (utils/constants.py). -/
structure BlockTransaction where
  action : Nat
  payload : PyStr
deriving DecidableEq, Repr

/-- `Block.contents`: the timestamp stamped by the Master at build time and
the ordered transaction list. -/
structure BlockContents where
  timestamp : Int
  transactions : List BlockTransaction
deriving DecidableEq, Repr

/-- A block, as compared field-by-field in `process_hashed_block`. -/
structure Block where
  id : Nat
  block_size_bytes : Nat
  prev_hash_block : PyStr
  hash_block : PyStr
  contents : BlockContents
deriving DecidableEq, Repr

/-- `ConsensusNegotiationStatus` (core/constants.py). -/
inductive ConsensusNegotiationStatus where
  | onProgress
  | completed
deriving DecidableEq, Repr

/-- `AssociatedNodeStatus` (core/constants.py). -/
inductive AssociatedNodeStatus where
  | currentlyAvailable
  | currentlyMining
  | currentlySleeping
  | notReachable
deriving DecidableEq, Repr

/-- One row of the `consensus_negotiation` table (blueprint/models.py). -/
structure NegotiationRow where
  consensus_negotiation_id : PyStr
  block_no_ref : Nat
  peer_address : PyStr
  status : ConsensusNegotiationStatus
deriving DecidableEq, Repr

/-- One row of the `associated_nodes` table, the fields touched by
`process_hashed_block`. -/
structure AssociatedNodeRow where
  user_address : PyStr
  status : AssociatedNodeStatus
  consensus_sleep_expiration : Int
deriving DecidableEq, Repr

/-- `ConsensusToMasterPayload` (blueprint/schemas.py): what a miner POSTs to
`/node/blockchain/receive_hashed_block`. -/
structure ConsensusToMasterPayload where
  block : Block
  miner_address : PyStr
  consensus_negotiation_id : PyStr
  consensus_sleep_expiration : Int
deriving DecidableEq, Repr

/-- The Master-side state read and written by `process_hashed_block`:
the in-memory `confirming_block_container` and `cached_block_id` of the
`BlockchainMechanism` singleton, the two database tables it updates, and the
persisted chain. -/
structure MasterState where
  confirming_block_container : List Block
  cached_block_id : Nat
  negotiations : List NegotiationRow
  associated_nodes : List AssociatedNodeRow
  chain : List Block
deriving DecidableEq, Repr

/-- HTTP outcomes of `process_hashed_block` (node/api/node.py). -/
inductive PHBStatus where
  | accepted202
  | noContent204
  | notAcceptable406
deriving DecidableEq, Repr

/-- The boolean condition of the `if` inside the confirming loop of
`process_hashed_block` (node/api/node.py, lines 158-170): field equality on
`id`, `block_size_bytes`, `prev_hash_block`, `contents.timestamp`, plus
`cached_block_id == block.id`. -/
def confirming_block_matches (cached_block_id : Nat)
    (each_confirming_block mined : Block) : Bool :=
  (each_confirming_block.id == mined.id && cached_block_id == mined.id)
    && each_confirming_block.block_size_bytes == mined.block_size_bytes
    && each_confirming_block.prev_hash_block == mined.prev_hash_block
    && each_confirming_block.contents.timestamp == mined.contents.timestamp

/-- The `for each_confirming_block in confirming_block_container` loop of
`process_hashed_block` (node/api/node.py, lines 150-182).  The loop body
either removes the matched element and breaks (`block_confirmed = True`), or
— because `if not block_confirmed:` sits inside the loop right after the
match test — raises HTTP 204 on the very first non-matching element.  An
empty container skips the loop, leaving `block_confirmed = False` without
raising.  Returns the container after the loop and the final
`block_confirmed` flag, or the raised status. -/
def confirming_block_scan (cached_block_id : Nat) (mined : Block) :
    List Block → Except PHBStatus (List Block × Bool)
  | [] => .ok ([], false)
  | each :: rest =>
    if confirming_block_matches cached_block_id each mined then
      -- `confirming_block_container.remove(each)` removes the first element
      -- equal to `each`, then `break`.
      .ok ((each :: rest).erase each, true)
    else
      -- `if not block_confirmed: raise HTTPException(..., NO_CONTENT)`
      .error .noContent204

/-- The identity re-binding `TransactionActions(transaction_context.action)`
(node/api/node.py, lines 232-246): the wire integer tag is resolved back to
the enum member, which carries the same integer value, so on valid tags the
field is unchanged. -/
def rebind_transaction_actions (b : Block) : Block :=
  { b with contents :=
    { b.contents with transactions :=
      b.contents.transactions.map (fun t => { t with action := t.action }) } }

/-- The `consensus_negotiation.update()` of `process_hashed_block`
(node/api/node.py, lines 197-210): rows whose id matches the payload's
negotiation id and whose status is ON_PROGRESS become COMPLETED. -/
def update_consensus_negotiation (cid : PyStr) (r : NegotiationRow) :
    NegotiationRow :=
  if r.consensus_negotiation_id == cid
      && r.status == ConsensusNegotiationStatus.onProgress then
    { r with status := ConsensusNegotiationStatus.completed }
  else r

/-- The `associated_nodes.update()` of `process_hashed_block`
(node/api/node.py, lines 213-224): the miner's row becomes
CURRENTLY_AVAILABLE with `consensus_sleep_expiration` pushed by the addon. -/
def update_associate_state (miner : PyStr) (expiration addon : Int)
    (r : AssociatedNodeRow) : AssociatedNodeRow :=
  if r.user_address == miner then
    { r with status := AssociatedNodeStatus.currentlyAvailable,
             consensus_sleep_expiration := expiration + addon }
  else r

/-- Modelled from the spec: `BlockchainMechanism._append_block`
(core/blockchain.py, not among the supplied sources) appends the confirmed
block to the chain and increments `cached_block_id` (spec section 4.4,
Appending). -/
def append_block (b : Block) (s : MasterState) : MasterState :=
  { s with chain := s.chain ++ [b], cached_block_id := s.cached_block_id + 1 }

/-- POST `/node/blockchain/receive_hashed_block` handler
`process_hashed_block` (node/api/node.py, lines 142-276), for an initialized
blockchain instance.  `addon` is the drawn value of
`random_generator.uniform(0, 2) * block_timer_seconds`, passed in as a
parameter.  A raised `HTTPException` leaves the state as it was at the raise
point. -/
def process_hashed_block (payload : ConsensusToMasterPayload) (addon : Int)
    (s : MasterState) : PHBStatus × MasterState :=
  match confirming_block_scan s.cached_block_id payload.block
      s.confirming_block_container with
  | .error st => (st, s)
  | .ok (container2, _block_confirmed) =>
    let s1 := { s with confirming_block_container := container2 }
    if s1.cached_block_id ≠ payload.block.id then
      (.notAcceptable406, s1)
    else
      let s2 := { s1 with
        negotiations := s1.negotiations.map
          (update_consensus_negotiation payload.consensus_negotiation_id),
        associated_nodes := s1.associated_nodes.map
          (update_associate_state payload.miner_address
            payload.consensus_sleep_expiration addon) }
      let s3 := append_block (rebind_transaction_actions payload.block) s2
      (.accepted202, s3)

/-! ## Sealed store: crypt_file, close_resources, startup
    (node/utils/processors.py) -/

/-- `CryptFileAction` (core/constants.py). -/
inductive CryptFileAction where
  | toDecrypt
  | toEncrypt
deriving DecidableEq, Repr

/-- Abstraction of the external `cryptography.fernet.Fernet` scheme keyed by
`AUTH_KEY`, plus `hashlib.sha256(...).hexdigest()`.  `fernetDecrypt` returns
`none` on an invalid token. -/
structure CryptoModel where
  fernetEncrypt : PyStr → PyStr
  fernetDecrypt : PyStr → Option PyStr
  sha256hex : PyStr → PyStr

/-- Result of `crypt_file`: the rewritten file content plus the optional
returned hash, or process termination (`_exit(1)` on `InvalidToken`). -/
inductive CryptResult where
  | ok (newContent : PyStr) (returnedHash : Option PyStr)
  | exited
deriving Repr

/-- `crypt_file` (node/utils/processors.py, lines 108-189), for a present
key, restricted to the `return_file_hash` return mode used by the callers
modelled here.  The file content is read, decrypted or encrypted, and
written back.  When `return_file_hash` is set, the hash returned is
`sha256(_file_content)` where `_file_content` is the content read from disk
for TO_DECRYPT (i.e. the ciphertext) and the freshly produced ciphertext for
TO_ENCRYPT — in both cases the hash of the encrypted bytes, never of the
cleartext.  `InvalidToken` during decryption calls `_exit(1)`. -/
def crypt_file (M : CryptoModel) (file_content : PyStr)
    (process : CryptFileAction) (return_file_hash : Bool) : CryptResult :=
  match process with
  | .toDecrypt =>
    match M.fernetDecrypt file_content with
    | none => .exited
    | some processed_content =>
      .ok processed_content
        (if return_file_hash then some (M.sha256hex file_content) else none)
  | .toEncrypt =>
    let processed_content := M.fernetEncrypt file_content
    .ok processed_content
      (if return_file_hash then some (M.sha256hex processed_content) else none)

/-- The on-disk artifacts of the sealed store: chain file, relational file,
and the `file_signatures` table ((filename, hash_signature) rows) persisted
inside the relational file. -/
structure NodeFiles where
  chainFile : PyStr
  dbFile : PyStr
  file_signatures : List (PyStr × PyStr)
deriving DecidableEq, Repr

/-- `BLOCKCHAIN_NAME` (core/constants.py). -/
def BLOCKCHAIN_NAME : PyStr := "folioblocks-chain.json".data

/-- `close_resources` (node/utils/processors.py, lines 460-498): encrypts the
chain file requesting its hash back (`return_file_hash=True`), discards the
returned value, disconnects the database and encrypts it.  No database write
is issued, so `file_signatures` is untouched. -/
def close_resources (M : CryptoModel) (s : NodeFiles) : NodeFiles :=
  match crypt_file M s.chainFile .toEncrypt true with
  | .ok newChain _discarded_hash =>
    match crypt_file M s.dbFile .toEncrypt false with
    | .ok newDb _ =>
      { s with chainFile := newChain, dbFile := newDb }
    | .exited => s  -- unreachable: TO_ENCRYPT never raises InvalidToken
  | .exited => s  -- unreachable: TO_ENCRYPT never raises InvalidToken

/-- `NodeType` (core/constants.py). -/
inductive NodeType where
  | masterNode
  | archivalMinerNode
deriving DecidableEq, Repr

/-- Result of the normal-open branch of
`initialize_resources_and_return_db_context`: either the db context is
returned (recording whether the critical signature-mismatch message was
logged on the way) or the process exited. -/
inductive OpenResult where
  | ok (mismatch_logged : Bool)
  | exited
deriving DecidableEq, Repr

/-- `fetch_val` of `select([file_signatures.c.hash_signature]).where(filename
== BLOCKCHAIN_NAME)`: the first matching row's hash, or None. -/
def fetch_blockchain_signature (rows : List (PyStr × PyStr)) : Option PyStr :=
  (rows.find? (fun r => r.fst == BLOCKCHAIN_NAME)).map (·.snd)

/-- Normal-open branch of `initialize_resources_and_return_db_context`
(node/utils/processors.py, lines 268-332): both files and the key present.
Decrypt the relational file (InvalidToken exits), fetch the recorded chain
signature, decrypt the chain file, recompute SHA-256 over the decrypted
chain bytes, and on mismatch log a critical message and continue — the
`role` argument is never consulted in this branch, so a MASTER_NODE
continues exactly like a miner. -/
def initialize_resources_normal_open (M : CryptoModel) (_role : NodeType)
    (s : NodeFiles) : OpenResult :=
  match crypt_file M s.dbFile .toDecrypt false with
  | .exited => .exited
  | .ok _dbPlain _ =>
    let blockchain_retrieved_hash := fetch_blockchain_signature s.file_signatures
    match crypt_file M s.chainFile .toDecrypt false with
    | .exited => .exited
    | .ok chainPlain _ =>
      let blockchain_context_hash := M.sha256hex chainPlain
      .ok (some blockchain_context_hash != blockchain_retrieved_hash)

/-- The four startup branches of `initialize_resources_and_return_db_context`
keyed on file layout. -/
inductive StartupAction where
  | normalOpen
  | fatalMissingKey
  | fatalCorruptedLayout
  | bootstrap
deriving DecidableEq, Repr

/-- The `if/elif/elif/else` layout dispatch of
`initialize_resources_and_return_db_context` (node/utils/processors.py,
lines 268-348), transcribed condition by condition:
`db_file.is_file() and bc_file.is_file() and key is not None` opens
normally; the same layout without a key is fatal; then
`(not db_file.is_file() or bc_file.is_file()) and key is not None` — as
written in the source, with no negation on the second disjunct — is the
"corrupted layout" fatality; everything else bootstraps a fresh instance. -/
def initialize_resources_layout_dispatch (db_file_is_file bc_file_is_file
    auth_key_present : Bool) : StartupAction :=
  if (db_file_is_file && bc_file_is_file) && auth_key_present then
    .normalOpen
  else if (db_file_is_file && bc_file_is_file) && !auth_key_present then
    .fatalMissingKey
  else if (!db_file_is_file || bc_file_is_file) && auth_key_present then
    .fatalCorruptedLayout
  else
    .bootstrap

/-! ## Consensus negotiation rows: validate_previous_consensus_negotiation
    (node/utils/processors.py) and the insert of process_raw_block
    (node/api/node.py) -/

/-- `validate_previous_consensus_negotiation` (node/utils/processors.py,
lines 896-919): fetch any negotiation row with the block's `block_no_ref`;
if one exists, delete every row with that `block_no_ref`. -/
def validate_previous_consensus_negotiation (block_id : Nat)
    (rows : List NegotiationRow) : List NegotiationRow :=
  if rows.any (fun r => r.block_no_ref == block_id) then
    rows.filter (fun r => !(r.block_no_ref == block_id))
  else
    rows

/-- `ConsensusFromMasterPayload` (blueprint/schemas.py): what the Master
POSTs to `/node/blockchain/receive_raw_block`. -/
structure ConsensusFromMasterPayload where
  block : Block
  master_address : PyStr
  consensus_negotiation_id : PyStr
deriving DecidableEq, Repr

/-- The `consensus_negotiation.insert()` of `process_raw_block`
(node/api/node.py, lines 295-307): a new ON_PROGRESS row is inserted for
`block.id` with no prior lookup or deletion. -/
def process_raw_block_insert (p : ConsensusFromMasterPayload)
    (rows : List NegotiationRow) : List NegotiationRow :=
  rows ++ [{ consensus_negotiation_id := p.consensus_negotiation_id,
             block_no_ref := p.block.id,
             peer_address := p.master_address,
             status := ConsensusNegotiationStatus.onProgress }]

/-- The spec invariant "at most one ON_PROGRESS negotiation per
`block_no_ref`", stated pairwise over the table. -/
def atMostOneOnProgress (rows : List NegotiationRow) : Prop :=
  rows.Pairwise (fun r1 r2 =>
    r1.status = ConsensusNegotiationStatus.onProgress →
    r2.status = ConsensusNegotiationStatus.onProgress →
    r1.block_no_ref ≠ r2.block_no_ref)

instance (rows : List NegotiationRow) : Decidable (atMostOneOnProgress rows) :=
  List.instDecidablePairwise rows

/-! ## Association handshake: acknowledge_as_response (node/api/node.py) -/

/-- The columns of a `users` row read by the handshake. -/
structure UserRow where
  unique_address : PyStr
  email : PyStr
deriving DecidableEq, Repr

/-- The columns of an `auth_codes` row read by the handshake. -/
structure AuthCodeRow where
  code : PyStr
  to_email : PyStr
deriving DecidableEq, Repr

/-- The columns of a `tokens` row read by the handshake. -/
structure TokenRow where
  token : PyStr
  from_user : PyStr
deriving DecidableEq, Repr

/-- One row inserted into `associated_nodes` by the handshake. -/
structure AssociationInsertRow where
  user_address : PyStr
  certificate : PyStr
  source_address : PyStr
  source_port : Nat
deriving DecidableEq, Repr

/-- The database tables consulted or written by `acknowledge_as_response`. -/
structure HandshakeDb where
  users : List UserRow
  auth_codes : List AuthCodeRow
  tokens : List TokenRow
  associated_nodes : List AssociationInsertRow
deriving DecidableEq, Repr

/-- HTTP outcomes of `acknowledge_as_response`. -/
inductive AckStatus where
  | ok200
  | unprocessable422
  | internalError500
deriving DecidableEq, Repr

/-- Result of `acknowledge_as_response`: the status, the `associated_nodes`
table after the call, the `certificate_token` of the 200 body, and the
`detail` of a raised `HTTPException`. -/
structure AckResult where
  status : AckStatus
  associated_nodes : List AssociationInsertRow
  certificate_token : Option PyStr
  detail : Option PyStr
deriving DecidableEq, Repr

/-- The constant detail of the handshake's single 422 raise site
(node/api/node.py, lines 484-487). -/
def invalid_headers_detail : PyStr := "One or more headers are invalid.".data

/-- The constant detail of the handshake's 500 raise site
(node/api/node.py, lines 479-482). -/
def missing_authority_detail : PyStr :=
  ("Authority to sign the certificate is not possible due to missing " ++
   "parameters or the blockchain instance is currently uninitialized.").data

/-- The `authored_token` plaintext composed on handshake success
(node/api/node.py, lines 430-439): `SECRET_KEY[:16] + x_session +
SECRET_KEY[32:48] + x_source + SECRET_KEY[48:] + x_acceptance +
SECRET_KEY[16:32] + datetime.now().isoformat()`. -/
def authored_token (authority_signed x_session x_source x_acceptance
    now_iso : PyStr) : PyStr :=
  pySliceTo authority_signed 16 ++ x_session
    ++ pySlice authority_signed 32 48 ++ x_source
    ++ pySliceFrom authority_signed 48 ++ x_acceptance
    ++ pySlice authority_signed 16 32 ++ now_iso

/-- POST `/node/establish/receive_echo` handler `acknowledge_as_response`
(node/api/node.py, lines 380-487).  `enc` abstracts
`Fernet(AUTH_KEY).encrypt`; `now_iso` the `datetime.now().isoformat()` draw;
the two `env.get` results and `get_blockchain_instance()` readiness are
parameters.  The three credential lookups are `fetch_one` (first matching
row) queries executed in sequence; every failure falls through to the one
422 raise at the end of the function.  On full success an association row is
inserted, the internal NODE_GENERAL_CONSENSUS_INIT transaction is recorded
(core/blockchain.py, outside the observables here), and the *plaintext*
token is returned.  When the keys are present but the blockchain instance is
uninitialized, the insert has already been executed when the 500 is
raised. -/
def acknowledge_as_response (enc : PyStr → PyStr) (now_iso : PyStr)
    (env_auth_key env_secret_key : Option PyStr)
    (blockchain_initialized : Bool)
    (origin_source_address : PyStr) (origin_source_port : Nat)
    (x_source x_session x_acceptance : PyStr)
    (db : HandshakeDb) : AckResult :=
  match db.users.find? (fun u => u.unique_address == x_source) with
  | none =>
    { status := .unprocessable422, associated_nodes := db.associated_nodes,
      certificate_token := none, detail := some invalid_headers_detail }
  | some validated_source_address =>
    match db.auth_codes.find? (fun a => a.code == x_acceptance
        && a.to_email == validated_source_address.email) with
    | none =>
      { status := .unprocessable422, associated_nodes := db.associated_nodes,
        certificate_token := none, detail := some invalid_headers_detail }
    | some _validated_auth_code =>
      match db.tokens.find? (fun t => t.token == x_session
          && t.from_user == validated_source_address.unique_address) with
      | none =>
        { status := .unprocessable422,
          associated_nodes := db.associated_nodes,
          certificate_token := none, detail := some invalid_headers_detail }
      | some _validated_node_token =>
        match env_auth_key, env_secret_key with
        | some _authority_code, some authority_signed =>
          let tok := authored_token authority_signed x_session x_source
            x_acceptance now_iso
          let encrypted_authored_token := enc tok
          let nodes2 := db.associated_nodes ++
            [{ user_address := validated_source_address.unique_address,
               certificate := encrypted_authored_token,
               source_address := origin_source_address,
               source_port := origin_source_port }]
          if blockchain_initialized then
            { status := .ok200, associated_nodes := nodes2,
              certificate_token := some tok, detail := none }
          else
            { status := .internalError500, associated_nodes := nodes2,
              certificate_token := none,
              detail := some missing_authority_detail }
        | _, _ =>
          { status := .internalError500,
            associated_nodes := db.associated_nodes,
            certificate_token := none,
            detail := some missing_authority_detail }

/-! ## Concrete instances used by counterexamples and witnesses -/

/-- A sealed block parked in `confirming_block_container`, awaiting return
(its `hash_block` still empty). -/
def confirmingBlock0 : Block :=
  { id := 0, block_size_bytes := 120, prev_hash_block := ("0000".data),
    hash_block := [],
    contents := { timestamp := 50, transactions := [⟨1, ("tx".data)⟩] } }

/-- The mined return of `confirmingBlock0`: same compared fields,
`hash_block` populated. -/
def minedBlock0 : Block := { confirmingBlock0 with hash_block := ("0000ab".data) }

/-- A confirming block that does not match `minedBlock0` (different id). -/
def strayBlock : Block := { confirmingBlock0 with id := 5 }

/-- A drifted return: `id = cached_block_id + 1`. -/
def minedBlock1 : Block := { minedBlock0 with id := 1 }

/-- An in-flight negotiation row for block 0. -/
def negoRow0 : NegotiationRow :=
  { consensus_negotiation_id := ("nego-a".data), block_no_ref := 0,
    peer_address := ("miner-1".data),
    status := ConsensusNegotiationStatus.onProgress }

/-- The returning miner's `associated_nodes` row. -/
def assocRow0 : AssociatedNodeRow :=
  { user_address := ("miner-1".data),
    status := AssociatedNodeStatus.currentlyMining,
    consensus_sleep_expiration := 0 }

/-- A miner's confirmation payload for block 0. -/
def payloadC1 : ConsensusToMasterPayload :=
  { block := minedBlock0, miner_address := ("miner-1".data),
    consensus_negotiation_id := ("nego-a".data),
    consensus_sleep_expiration := 100 }

/-- A drifted confirmation payload (block id 1 while `cached_block_id` 0). -/
def payloadC3 : ConsensusToMasterPayload := { payloadC1 with block := minedBlock1 }

/-- Master state whose confirming container holds a non-matching block ahead
of the matching one. -/
def stateC1 : MasterState :=
  { confirming_block_container := [strayBlock, confirmingBlock0],
    cached_block_id := 0, negotiations := [negoRow0],
    associated_nodes := [assocRow0], chain := [] }

/-- Master state whose confirming container holds exactly the matching
block. -/
def stateHead : MasterState :=
  { stateC1 with confirming_block_container := [confirmingBlock0] }

/-- Master state with an empty confirming container. -/
def stateEmpty : MasterState := { stateC1 with confirming_block_container := [] }

/-- Master state whose confirming container holds only a non-matching
block. -/
def stateStray : MasterState :=
  { stateC1 with confirming_block_container := [strayBlock] }

/-- A concrete crypto model: reversible tagging for Fernet and a tagging
hash, enough to distinguish cleartexts, ciphertexts and hashes. -/
def cryptoModelC : CryptoModel :=
  { fernetEncrypt := fun c => 'E' :: c,
    fernetDecrypt := fun c => some c,
    sha256hex := fun c => 'H' :: c }

/-- On-disk state whose recorded chain signature does not match the chain
file's recomputed hash. -/
def nodeFilesMismatch : NodeFiles :=
  { chainFile := ("chain".data), dbFile := ("db".data),
    file_signatures := [(BLOCKCHAIN_NAME, ("stale".data))] }

/-- A Master dispatch payload carrying block 0 under a fresh negotiation
id. -/
def rawPayloadC7 : ConsensusFromMasterPayload :=
  { block := minedBlock0, master_address := ("master-1".data),
    consensus_negotiation_id := ("nego-b".data) }

/-- A registered miner user row. -/
def userC : UserRow := { unique_address := ("addr-1".data), email := ("u@x.y".data) }

/-- The acceptance code issued to that user's e-mail. -/
def authCodeC : AuthCodeRow := { code := ("code-1".data), to_email := ("u@x.y".data) }

/-- The session token minted for that user. -/
def tokenC : TokenRow := { token := ("sess-1".data), from_user := ("addr-1".data) }

/-- Handshake database where all three credential lookups succeed for
`addr-1` / `sess-1` / `code-1`. -/
def handshakeDbC : HandshakeDb :=
  { users := [userC], auth_codes := [authCodeC], tokens := [tokenC],
    associated_nodes := [] }

/-- A concrete `Fernet(AUTH_KEY).encrypt` stand-in. -/
def encC : PyStr → PyStr := fun c => 'E' :: c

/-- A concrete 64-character SECRET_KEY (16 chars per quarter). -/
def secretC : PyStr :=
  ("AAAAAAAAAAAAAAAABBBBBBBBBBBBBBBBCCCCCCCCCCCCCCCCDDDDDDDDDDDDDDDD".data)

/-- Modelled from the spec: the certificate plaintext layout claimed in
section 4.3, `SECRET_KEY[0:16] + X-Session + SECRET_KEY[32:48] + X-Source +
SECRET_KEY[48:64] + X-Acceptance + SECRET_KEY[16:32] + ISO-8601(now)`, with
every slice written with explicit bounds.  Compared against the source's
`authored_token`, which uses `SECRET_KEY[48:]` for the third slice. -/
def spec_certificate_plaintext (secret x_session x_source x_acceptance
    now_iso : PyStr) : PyStr :=
  pySlice secret 0 16 ++ x_session ++ pySlice secret 32 48 ++ x_source
    ++ pySlice secret 48 64 ++ x_acceptance ++ pySlice secret 16 32 ++ now_iso

/-! ## C1: the confirming-block scan of process_hashed_block -/

/-- C1, refuted at a concrete input: with `confirming_block_container =
[strayBlock, confirmingBlock0]` where the head does not match the returned
block but the second element does, `process_hashed_block` does NOT scan the
whole container and remove the matching element — it raises HTTP 204 on the
head and leaves the container (and all state) untouched, because the
`if not block_confirmed:` check sits inside the scanning loop. -/
theorem C1_counterexample :
    confirming_block_matches stateC1.cached_block_id strayBlock
        payloadC1.block = false
    ∧ confirming_block_matches stateC1.cached_block_id confirmingBlock0
        payloadC1.block = true
    ∧ confirmingBlock0 ∈ stateC1.confirming_block_container
    ∧ process_hashed_block payloadC1 3 stateC1
        = (PHBStatus.noContent204, stateC1) := by
  decide

/-- C1 as amended: `process_hashed_block` only ever examines the head of
`confirming_block_container`.  If the head matches the returned block on
`{id, block_size_bytes, prev_hash_block, contents.timestamp}` with `id ==
cached_block_id`, exactly the head is removed; if the head does not match,
the handler raises HTTP 204 at once without examining any further element
and without mutating state. -/
theorem C1_amended_theorem (payload : ConsensusToMasterPayload) (addon : Int)
    (s : MasterState) (b : Block) (rest : List Block)
    (hc : s.confirming_block_container = b :: rest) :
    (confirming_block_matches s.cached_block_id b payload.block = true →
      (process_hashed_block payload addon s).2.confirming_block_container
        = rest)
    ∧ (confirming_block_matches s.cached_block_id b payload.block = false →
      process_hashed_block payload addon s = (PHBStatus.noContent204, s)) := by
  constructor
  · intro hm
    unfold process_hashed_block
    rw [hc]
    simp only [confirming_block_scan, hm, if_true]
    rw [List.erase_cons_head]
    split
    · rfl
    · simp [append_block]
  · intro hm
    unfold process_hashed_block
    rw [hc]
    simp [confirming_block_scan, hm]

/-- Witness for C1's amended theorem at a concrete input: a one-element
container whose head matches is emptied. -/
theorem C1_amended_witness :
    stateHead.confirming_block_container = confirmingBlock0 :: []
    ∧ confirming_block_matches stateHead.cached_block_id confirmingBlock0
        payloadC1.block = true
    ∧ (process_hashed_block payloadC1 3 stateHead).2.confirming_block_container
        = [] :=
  ⟨by decide, by decide,
    (C1_amended_theorem payloadC1 3 stateHead confirmingBlock0 [] (by decide)).1
      (by decide)⟩

/-! ## C2: the no-match path of process_hashed_block -/

/-- C2, refuted at a concrete input: with an EMPTY
`confirming_block_container` (so no element matches, vacuously) and a
returned block whose id equals `cached_block_id`, the handler does not
respond 204 and does mutate state — the loop is skipped, the out-of-sync
check passes, and the handler completes the negotiation, updates the miner
row and appends the block. -/
theorem C2_counterexample :
    (∀ b ∈ stateEmpty.confirming_block_container,
      confirming_block_matches stateEmpty.cached_block_id b
        payloadC1.block = false)
    ∧ (process_hashed_block payloadC1 3 stateEmpty).1 = PHBStatus.accepted202
    ∧ (process_hashed_block payloadC1 3 stateEmpty).2.negotiations
        ≠ stateEmpty.negotiations
    ∧ (process_hashed_block payloadC1 3 stateEmpty).2.chain
        ≠ stateEmpty.chain := by
  decide

/-- C2 as amended: for every call in which `confirming_block_container` is
non-empty and no element of it matches the returned block on
`{id, block_size_bytes, prev_hash_block, contents.timestamp}` with `id ==
cached_block_id`, the handler responds 204 and mutates no state (the empty
container instead falls through the loop). -/
theorem C2_amended_theorem (payload : ConsensusToMasterPayload) (addon : Int)
    (s : MasterState)
    (hne : s.confirming_block_container ≠ [])
    (hnm : ∀ b ∈ s.confirming_block_container,
      confirming_block_matches s.cached_block_id b payload.block = false) :
    process_hashed_block payload addon s = (PHBStatus.noContent204, s) := by
  obtain ⟨b, rest, hc⟩ : ∃ b rest, s.confirming_block_container = b :: rest := by
    cases hcc : s.confirming_block_container with
    | nil => exact absurd hcc hne
    | cons x xs => exact ⟨x, xs, rfl⟩
  have hb : confirming_block_matches s.cached_block_id b payload.block = false :=
    hnm b (by rw [hc]; exact List.mem_cons_self b rest)
  unfold process_hashed_block
  rw [hc]
  simp [confirming_block_scan, hb]

/-- Witness for C2's amended theorem at a concrete input: a container
holding one non-matching block yields 204 and an unchanged state. -/
theorem C2_amended_witness :
    stateStray.confirming_block_container ≠ []
    ∧ process_hashed_block payloadC1 3 stateStray
        = (PHBStatus.noContent204, stateStray) :=
  ⟨by decide, C2_amended_theorem payloadC1 3 stateStray (by decide) (by decide)⟩

/-! ## C3: id drift in process_hashed_block -/

/-- C3, refuted at a concrete input: a returned block with
`id = cached_block_id + 1` is answered with HTTP 204 — not 406 — whenever
`confirming_block_container` is non-empty, because the head fails the match
(its `cached_block_id == block.id` conjunct is false) and the in-loop check
raises 204 before the out-of-sync check is reached. -/
theorem C3_counterexample :
    payloadC3.block.id = stateHead.cached_block_id + 1
    ∧ stateHead.confirming_block_container ≠ []
    ∧ process_hashed_block payloadC3 3 stateHead
        = (PHBStatus.noContent204, stateHead) := by
  decide

/-- C3 as amended: on id drift (`block.id = cached_block_id + 1`) the
handler raises before any mutation, leaving the whole state — in particular
`cached_block_id` — unchanged; the status is 406 only when
`confirming_block_container` is empty, and 204 otherwise. -/
theorem C3_amended_theorem (payload : ConsensusToMasterPayload) (addon : Int)
    (s : MasterState)
    (h : payload.block.id = s.cached_block_id + 1) :
    process_hashed_block payload addon s =
      ((if s.confirming_block_container.isEmpty then PHBStatus.notAcceptable406
        else PHBStatus.noContent204), s) := by
  cases hcc : s.confirming_block_container with
  | nil =>
    have hne : s.cached_block_id ≠ payload.block.id := by omega
    unfold process_hashed_block
    rw [hcc]
    simp only [confirming_block_scan, List.isEmpty_nil, if_true]
    rw [← hcc]
    simp [hne]
  | cons b rest =>
    have hbeq : (s.cached_block_id == payload.block.id) = false := by
      rw [beq_eq_false_iff_ne]
      omega
    have hb : confirming_block_matches s.cached_block_id b payload.block
        = false := by
      unfold confirming_block_matches
      rw [hbeq]
      simp
    unfold process_hashed_block
    rw [hcc]
    simp [confirming_block_scan, hb]

/-- Witness for C3's amended theorem at a concrete input: drift against an
empty container gives 406 with the state unchanged. -/
theorem C3_amended_witness :
    payloadC3.block.id = stateEmpty.cached_block_id + 1
    ∧ process_hashed_block payloadC3 3 stateEmpty =
      ((if stateEmpty.confirming_block_container.isEmpty then
          PHBStatus.notAcceptable406 else PHBStatus.noContent204), stateEmpty) :=
  ⟨by decide, C3_amended_theorem payloadC3 3 stateEmpty (by decide)⟩

/-! ## C4: close_resources and the chain signature -/

/-- C4: what `close_resources` actually does, for every crypto model and
every on-disk state.  Both files are re-encrypted, but the
`file_signatures` table is never written: the hash that
`crypt_file(..., return_file_hash=True)` hands back (the hash of the fresh
ciphertext, not of the cleartext) is discarded by the caller.  The claimed
signature update does not happen, so a restart after a run that changed the
chain recomputes a hash differing from the stored signature. -/
theorem C4_close_resources_keeps_signatures (M : CryptoModel) (s : NodeFiles) :
    (close_resources M s).file_signatures = s.file_signatures
    ∧ (close_resources M s).chainFile = M.fernetEncrypt s.chainFile
    ∧ (close_resources M s).dbFile = M.fernetEncrypt s.dbFile := by
  simp [close_resources, crypt_file]

/-- C4, evaluated at a concrete failing input: a run whose chain content
hashes to a value differing from the stored signature is shut down by
`close_resources`; decrypting the chain back (restart without changes) and
recomputing the hash still mismatches the stored signature, since the
signature row was never updated. -/
theorem C4_shutdown_restart_mismatch :
    cryptoModelC.fernetDecrypt
        ((close_resources cryptoModelC nodeFilesMismatch).chainFile)
      = some ('E' :: ("chain".data))
    ∧ fetch_blockchain_signature
        ((close_resources cryptoModelC nodeFilesMismatch).file_signatures)
      = some ("stale".data)
    ∧ cryptoModelC.sha256hex ("chain".data) ≠ ("stale".data) := by
  decide

/-! ## C5: signature mismatch on normal open -/

/-- C5, refuted at a concrete input: with a mismatching stored signature and
the node role MASTER_NODE, `initialize_resources_normal_open` still returns
the database context (`.ok` with the critical mismatch logged) — it does not
refuse to continue; the role argument is never consulted in this branch. -/
theorem C5_counterexample :
    fetch_blockchain_signature nodeFilesMismatch.file_signatures
        ≠ some (cryptoModelC.sha256hex ("chain".data))
    ∧ initialize_resources_normal_open cryptoModelC NodeType.masterNode
        nodeFilesMismatch = OpenResult.ok true := by
  decide

/-- C5 as amended: on normal open, after decrypting the chain file the
recomputed SHA-256 is compared with the stored signature; on mismatch a
critical message is logged and the process continues REGARDLESS of role —
the Master does not refuse to continue (the result does not depend on
`role`). -/
theorem C5_amended_theorem (M : CryptoModel) (role : NodeType) (s : NodeFiles)
    (p q : PyStr)
    (hdb : M.fernetDecrypt s.dbFile = some p)
    (hch : M.fernetDecrypt s.chainFile = some q) :
    initialize_resources_normal_open M role s =
      OpenResult.ok
        (some (M.sha256hex q) != fetch_blockchain_signature s.file_signatures) := by
  unfold initialize_resources_normal_open
  simp [crypt_file, hdb, hch]

/-- Witness for C5's amended theorem at a concrete input. -/
theorem C5_amended_witness :
    cryptoModelC.fernetDecrypt nodeFilesMismatch.dbFile = some ("db".data)
    ∧ initialize_resources_normal_open cryptoModelC NodeType.masterNode
        nodeFilesMismatch =
      OpenResult.ok
        (some (cryptoModelC.sha256hex ("chain".data))
          != fetch_blockchain_signature nodeFilesMismatch.file_signatures) :=
  ⟨rfl, C5_amended_theorem cryptoModelC NodeType.masterNode nodeFilesMismatch
    ("db".data) ("chain".data) rfl rfl⟩

/-! ## C6: the mixed-layout startup check -/

/-- C6, evaluated at the failing layout: with the database file present, the
chain file missing and the key present — a mixed layout the claim says is
fatal — the dispatch falls through to the bootstrap branch, because the
source condition reads `not db_file.is_file() or bc_file.is_file()` (missing
a negation on the second disjunct, as its own log message shows).  The
opposite mixed layout does reach the fatal branch. -/
theorem C6_layout_dispatch_divergence :
    initialize_resources_layout_dispatch true false true
        = StartupAction.bootstrap
    ∧ initialize_resources_layout_dispatch false true true
        = StartupAction.fatalCorruptedLayout := by
  decide

/-! ## C7: at most one ON_PROGRESS negotiation per block_no_ref -/

/-- C7, refuted at a concrete input: `process_raw_block` inserts its
ON_PROGRESS row without any prior lookup or deletion, so dispatching block 0
onto a table that already holds an ON_PROGRESS negotiation for block 0
leaves the prior row in place and produces two ON_PROGRESS rows for the same
`block_no_ref`. -/
theorem C7_counterexample :
    negoRow0.status = ConsensusNegotiationStatus.onProgress
    ∧ negoRow0.block_no_ref = rawPayloadC7.block.id
    ∧ negoRow0 ∈ process_raw_block_insert rawPayloadC7 [negoRow0]
    ∧ ¬ atMostOneOnProgress (process_raw_block_insert rawPayloadC7 [negoRow0]) := by
  decide

/-- C7 as amended: initiations that run
`validate_previous_consensus_negotiation` before inserting preserve the
at-most-one-ON_PROGRESS-per-`block_no_ref` invariant, because the helper
deletes every prior row for the block; `process_raw_block` itself inserts
without that deletion, so the invariant is not maintained on its path. -/
theorem C7_amended_theorem (rows : List NegotiationRow)
    (p : ConsensusFromMasterPayload)
    (h : atMostOneOnProgress rows) :
    atMostOneOnProgress (process_raw_block_insert p
      (validate_previous_consensus_negotiation p.block.id rows)) := by
  have hclean : ∀ r ∈ validate_previous_consensus_negotiation p.block.id rows,
      r.block_no_ref ≠ p.block.id := by
    intro r hr
    unfold validate_previous_consensus_negotiation at hr
    by_cases hc : rows.any (fun r => r.block_no_ref == p.block.id)
    · rw [if_pos hc] at hr
      have := List.of_mem_filter hr
      simpa using this
    · rw [if_neg hc] at hr
      intro he
      apply hc
      rw [List.any_eq_true]
      exact ⟨r, hr, by simpa using he⟩
  have hpair : atMostOneOnProgress
      (validate_previous_consensus_negotiation p.block.id rows) := by
    unfold validate_previous_consensus_negotiation
    by_cases hc : rows.any (fun r => r.block_no_ref == p.block.id)
    · rw [if_pos hc]
      exact h.filter _
    · rw [if_neg hc]
      exact h
  unfold process_raw_block_insert atMostOneOnProgress
  rw [List.pairwise_append]
  refine ⟨hpair, List.pairwise_singleton _ _, ?_⟩
  intro a ha y hy
  have hy2 : y.block_no_ref = p.block.id := by
    simp only [List.mem_singleton] at hy
    rw [hy]
  intro _ _
  rw [hy2]
  exact hclean a ha

/-- Witness for C7's amended theorem at a concrete input: routing the same
dispatch through the helper first deletes the stale row and keeps the
invariant. -/
theorem C7_amended_witness :
    atMostOneOnProgress [negoRow0]
    ∧ atMostOneOnProgress (process_raw_block_insert rawPayloadC7
        (validate_previous_consensus_negotiation rawPayloadC7.block.id
          [negoRow0])) :=
  ⟨by decide, C7_amended_theorem [negoRow0] rawPayloadC7 (by decide)⟩

/-! ## C8: the handshake certificate -/

/-- For a 64-character SECRET_KEY, the source's tail slice `[48:]` is the
spec's `[48:64]`. -/
theorem pySliceFrom_48_of_len_64 (s : PyStr) (h : s.length = 64) :
    pySliceFrom s 48 = pySlice s 48 64 := by
  simp only [pySliceFrom, pySlice]
  rw [List.take_of_length_le]
  rw [List.length_drop, h]

/-- The source's `authored_token` equals the spec's claimed plaintext layout
whenever SECRET_KEY has its generated length of 64 characters. -/
theorem authored_token_eq_spec (secret x_session x_source x_acceptance
    now_iso : PyStr) (h : secret.length = 64) :
    authored_token secret x_session x_source x_acceptance now_iso
      = spec_certificate_plaintext secret x_session x_source x_acceptance
          now_iso := by
  unfold authored_token spec_certificate_plaintext
  rw [pySliceFrom_48_of_len_64 secret h]
  simp [pySliceTo, pySlice]

/-- C8: on every successful handshake (all three lookups succeed, both keys
present, blockchain instance initialized), the certificate plaintext has
exactly the claimed layout, the row stored in `associated_nodes` carries the
Fernet encryption of that plaintext under AUTH_KEY together with the
request body's source address and port, and the PLAINTEXT is what is
returned as `certificate_token`. -/
theorem C8_certificate_layout
    (enc : PyStr → PyStr) (now_iso authority_code authority_signed : PyStr)
    (origin_addr : PyStr) (origin_port : Nat)
    (x_source x_session x_acceptance : PyStr) (db : HandshakeDb)
    (u : UserRow) (a : AuthCodeRow) (t : TokenRow)
    (hu : db.users.find? (fun w => w.unique_address == x_source) = some u)
    (ha : db.auth_codes.find? (fun r => r.code == x_acceptance
        && r.to_email == u.email) = some a)
    (ht : db.tokens.find? (fun r => r.token == x_session
        && r.from_user == u.unique_address) = some t)
    (hlen : authority_signed.length = 64) :
    acknowledge_as_response enc now_iso (some authority_code)
        (some authority_signed) true origin_addr origin_port x_source
        x_session x_acceptance db
      = { status := AckStatus.ok200,
          associated_nodes := db.associated_nodes ++
            [{ user_address := u.unique_address,
               certificate := enc (spec_certificate_plaintext authority_signed
                 x_session x_source x_acceptance now_iso),
               source_address := origin_addr,
               source_port := origin_port }],
          certificate_token := some (spec_certificate_plaintext
            authority_signed x_session x_source x_acceptance now_iso),
          detail := none } := by
  unfold acknowledge_as_response
  simp only [hu, ha, ht]
  simp [authored_token_eq_spec authority_signed x_session x_source
    x_acceptance now_iso hlen]

/-- Witness for C8 at a concrete input. -/
theorem C8_certificate_layout_witness :
    secretC.length = 64
    ∧ acknowledge_as_response encC ("2024-01-01T00:00:00".data)
        (some ("AUTHKEY".data)) (some secretC) true ("127.0.0.1".data) 5001
        ("addr-1".data) ("sess-1".data) ("code-1".data) handshakeDbC
      = { status := AckStatus.ok200,
          associated_nodes := handshakeDbC.associated_nodes ++
            [{ user_address := userC.unique_address,
               certificate := encC (spec_certificate_plaintext secretC
                 ("sess-1".data) ("addr-1".data) ("code-1".data)
                 ("2024-01-01T00:00:00".data)),
               source_address := ("127.0.0.1".data),
               source_port := 5001 }],
          certificate_token := some (spec_certificate_plaintext secretC
            ("sess-1".data) ("addr-1".data) ("code-1".data)
            ("2024-01-01T00:00:00".data)),
          detail := none } :=
  ⟨by decide,
    C8_certificate_layout encC ("2024-01-01T00:00:00".data) ("AUTHKEY".data)
      secretC ("127.0.0.1".data) 5001 ("addr-1".data) ("sess-1".data)
      ("code-1".data) handshakeDbC userC authCodeC tokenC (by decide)
      (by decide) (by decide) (by decide)⟩

/-! ## C9: handshake lookup failures -/

/-- C9: whenever any of the three sequential lookups fails — the user row
keyed by X-Source, the acceptance row keyed by X-Acceptance and the user's
email, or the session-token row keyed by X-Session and the user's address —
the handshake falls through to the single 422 raise site, whose constant
detail is identical for all three causes, and `associated_nodes` is left
untouched. -/
theorem C9_lookup_failure_uniform_422
    (enc : PyStr → PyStr) (now_iso : PyStr)
    (env_auth_key env_secret_key : Option PyStr)
    (blockchain_initialized : Bool)
    (origin_addr : PyStr) (origin_port : Nat)
    (x_source x_session x_acceptance : PyStr) (db : HandshakeDb)
    (h : db.users.find? (fun w => w.unique_address == x_source) = none
      ∨ (∃ u, db.users.find? (fun w => w.unique_address == x_source) = some u
          ∧ db.auth_codes.find? (fun r => r.code == x_acceptance
              && r.to_email == u.email) = none)
      ∨ (∃ u a,
          db.users.find? (fun w => w.unique_address == x_source) = some u
          ∧ db.auth_codes.find? (fun r => r.code == x_acceptance
              && r.to_email == u.email) = some a
          ∧ db.tokens.find? (fun r => r.token == x_session
              && r.from_user == u.unique_address) = none)) :
    acknowledge_as_response enc now_iso env_auth_key env_secret_key
        blockchain_initialized origin_addr origin_port x_source x_session
        x_acceptance db
      = { status := AckStatus.unprocessable422,
          associated_nodes := db.associated_nodes,
          certificate_token := none,
          detail := some invalid_headers_detail } := by
  unfold acknowledge_as_response
  rcases h with h1 | ⟨u, hu, h2⟩ | ⟨u, a, hu, ha, h3⟩
  · simp [h1]
  · simp [hu, h2]
  · simp [hu, ha, h3]

/-- Witness for C9 at a concrete input: an unknown X-Source. -/
theorem C9_lookup_failure_witness :
    handshakeDbC.users.find?
        (fun w => w.unique_address == ("addr-2".data)) = none
    ∧ acknowledge_as_response encC ("2024-01-01T00:00:00".data)
        (some ("AUTHKEY".data)) (some secretC) true ("127.0.0.1".data) 5001
        ("addr-2".data) ("sess-1".data) ("code-1".data) handshakeDbC
      = { status := AckStatus.unprocessable422,
          associated_nodes := handshakeDbC.associated_nodes,
          certificate_token := none,
          detail := some invalid_headers_detail } :=
  ⟨by decide,
    C9_lookup_failure_uniform_422 encC ("2024-01-01T00:00:00".data)
      (some ("AUTHKEY".data)) (some secretC) true ("127.0.0.1".data) 5001
      ("addr-2".data) ("sess-1".data) ("code-1".data) handshakeDbC
      (Or.inl (by decide))⟩

/-! ## C10: the non-atomic 500 on an uninitialized blockchain -/

/-- C10: when all three lookups succeed and both keys are present but the
blockchain instance is not yet initialized, the association row (with the
encrypted certificate) has already been inserted into `associated_nodes`
when the 500 error is raised: the error response is not atomic. -/
theorem C10_insert_precedes_500
    (enc : PyStr → PyStr) (now_iso authority_code authority_signed : PyStr)
    (origin_addr : PyStr) (origin_port : Nat)
    (x_source x_session x_acceptance : PyStr) (db : HandshakeDb)
    (u : UserRow) (a : AuthCodeRow) (t : TokenRow)
    (hu : db.users.find? (fun w => w.unique_address == x_source) = some u)
    (ha : db.auth_codes.find? (fun r => r.code == x_acceptance
        && r.to_email == u.email) = some a)
    (ht : db.tokens.find? (fun r => r.token == x_session
        && r.from_user == u.unique_address) = some t) :
    acknowledge_as_response enc now_iso (some authority_code)
        (some authority_signed) false origin_addr origin_port x_source
        x_session x_acceptance db
      = { status := AckStatus.internalError500,
          associated_nodes := db.associated_nodes ++
            [{ user_address := u.unique_address,
               certificate := enc (authored_token authority_signed x_session
                 x_source x_acceptance now_iso),
               source_address := origin_addr,
               source_port := origin_port }],
          certificate_token := none,
          detail := some missing_authority_detail } := by
  unfold acknowledge_as_response
  simp [hu, ha, ht]

/-- Witness for C10 at a concrete input. -/
theorem C10_insert_precedes_500_witness :
    handshakeDbC.associated_nodes = []
    ∧ acknowledge_as_response encC ("2024-01-01T00:00:00".data)
        (some ("AUTHKEY".data)) (some secretC) false ("127.0.0.1".data) 5001
        ("addr-1".data) ("sess-1".data) ("code-1".data) handshakeDbC
      = { status := AckStatus.internalError500,
          associated_nodes := handshakeDbC.associated_nodes ++
            [{ user_address := userC.unique_address,
               certificate := encC (authored_token secretC ("sess-1".data)
                 ("addr-1".data) ("code-1".data)
                 ("2024-01-01T00:00:00".data)),
               source_address := ("127.0.0.1".data),
               source_port := 5001 }],
          certificate_token := none,
          detail := some missing_authority_detail } :=
  ⟨by decide,
    C10_insert_precedes_500 encC ("2024-01-01T00:00:00".data)
      ("AUTHKEY".data) secretC ("127.0.0.1".data) 5001 ("addr-1".data)
      ("sess-1".data) ("code-1".data) handshakeDbC userC authCodeC tokenC
      (by decide) (by decide) (by decide)⟩
